import Mathlib

/-!
Shallow embedding of the tun-rs repository core: the netmask/prefix address
coercion (src/builder.rs), the builder configuration application order
(src/builder.rs, `DeviceBuilder::config`), the wintun session write paths and
blocking read (src/platform/windows/device.rs), the L2 device creation path
(src/platform/windows/device.rs, `Device::new`), the tokio poll_recv/poll_send
readiness loop (src/async_device/unix/tokio.rs), and the netsh invocation
builders (src/platform/windows/netsh.rs).  Machine integers are embedded as
`Nat` with explicit `% 2 ^ w` where overflow matters; fallible Rust code
returns `Except`.
-/

set_option autoImplicit false

deriving instance DecidableEq for Except

namespace TunRs

/-- The `std::io::ErrorKind` values used by the embedded code. -/
inductive ErrKind where
  | wouldBlock
  | connectionAborted
  | invalidData
  | unsupported
  | writeZero
  | notFound
  | otherKind
  deriving DecidableEq, Repr

/-- A `std::io::Error`: its kind, the raw OS error code when one is attached
(`io::Error::raw_os_error`), and the message. -/
structure IoError where
  kind : ErrKind
  raw : Option Int
  msg : String
  deriving DecidableEq, Repr

/-- The error `io::Error::new(InvalidData, "invalid IP prefix length")` from
`builder.rs`. -/
def invalidPfxErr : IoError := ⟨ErrKind.invalidData, none, "invalid IP prefix length"⟩

/-- The error `io::Error::new(InvalidData, "invalid netmask")` from `builder.rs`. -/
def invalidNetmaskErr : IoError := ⟨ErrKind.invalidData, none, "invalid netmask"⟩

/-- `io::Error::from(io::ErrorKind::WouldBlock)`. -/
def wouldBlockErr : IoError := ⟨ErrKind.wouldBlock, none, ""⟩

/-! ### Address coercion: netmask and prefix (src/builder.rs lines 395-501) -/

/-- `u32::MAX`. -/
def u32Max : Nat := 2 ^ 32 - 1

/-- `u128::MAX`. -/
def u128Max : Nat := 2 ^ 128 - 1

/-- `u32::checked_shl`: `none` when the shift amount is at least the bit
width, otherwise the shifted value truncated to 32 bits. -/
def checkedShl32 (x n : Nat) : Option Nat :=
  if 32 ≤ n then none else some ((x <<< n) % 2 ^ 32)

/-- `u128::checked_shl`. -/
def checkedShl128 (x n : Nat) : Option Nat :=
  if 128 ≤ n then none else some ((x <<< n) % 2 ^ 128)

/-- Number of leading one bits among the low `w` bits of `x`
(the `uN::leading_ones` intrinsic, instantiated by `w`). -/
def leadingOnesAux (x : Nat) : Nat → Nat
  | 0 => 0
  | w + 1 => if x.testBit w then leadingOnesAux x w + 1 else 0

/-- `u32::leading_ones`. -/
def leadingOnes32 (x : Nat) : Nat := leadingOnesAux x 32

/-- `u128::leading_ones`. -/
def leadingOnes128 (x : Nat) : Nat := leadingOnesAux x 128

/-- Number of one bits among the low `w` bits of `x` (`uN::count_ones`). -/
def countOnesAux (x : Nat) : Nat → Nat
  | 0 => 0
  | w + 1 => (if x.testBit w then 1 else 0) + countOnesAux x w

/-- `u32::count_ones`. -/
def countOnes32 (x : Nat) : Nat := countOnesAux x 32

/-- `u128::count_ones`. -/
def countOnes128 (x : Nat) : Nat := countOnesAux x 128

/-- `<u8 as ToIpv4Netmask>::prefix`: an in-range prefix length passes through,
anything above 32 is rejected. -/
def pfxU8V4 (p : Nat) : Except IoError Nat :=
  if 32 < p then Except.error invalidPfxErr else Except.ok p

/-- The default method `ToIpv4Netmask::netmask`, instantiated at `u8`:
`u32::MAX.checked_shl(32 - prefix).unwrap_or(0)` as an `Ipv4Addr` bit pattern. -/
def netmaskU8V4 (p : Nat) : Except IoError Nat :=
  match pfxU8V4 p with
  | Except.error e => Except.error e
  | Except.ok q => Except.ok ((checkedShl32 u32Max (32 - q)).getD 0)

/-- `<Ipv4Addr as ToIpv4Netmask>::prefix`: the mask bit pattern must be a
contiguous run of ones from the most significant bit
(`leading_ones == count_ones`), and the prefix is the leading-ones count. -/
def pfxMask4 (x : Nat) : Except IoError Nat :=
  if leadingOnes32 x ≠ countOnes32 x then Except.error invalidNetmaskErr
  else Except.ok (leadingOnes32 x)

/-- `<u8 as ToIpv6Netmask>::prefix`. -/
def pfxU8V6 (p : Nat) : Except IoError Nat :=
  if 128 < p then Except.error invalidPfxErr else Except.ok p

/-- The default method `ToIpv6Netmask::netmask`, instantiated at `u8`. -/
def netmaskU8V6 (p : Nat) : Except IoError Nat :=
  match pfxU8V6 p with
  | Except.error e => Except.error e
  | Except.ok q => Except.ok ((checkedShl128 u128Max (128 - q)).getD 0)

/-- `<Ipv6Addr as ToIpv6Netmask>::prefix`. -/
def pfxMask6 (x : Nat) : Except IoError Nat :=
  if leadingOnes128 x ≠ countOnes128 x then Except.error invalidNetmaskErr
  else Except.ok (leadingOnes128 x)

/-- The IPv4 mask value produced for prefix `p` (the body of the `Ok` branch
of `ToIpv4Netmask::netmask`). -/
def maskVal32 (p : Nat) : Nat := (checkedShl32 u32Max (32 - p)).getD 0

/-- The IPv6 mask value produced for prefix `p`. -/
def maskVal128 (p : Nat) : Nat := (checkedShl128 u128Max (128 - p)).getD 0

/-- Boolean success test for `Except` (mirrors `Result::is_ok`). -/
def exOk {ε α : Type} : Except ε α → Bool
  | Except.ok _ => true
  | Except.error _ => false

/-! ### The tokio readiness/retry loop (src/async_device/unix/tokio.rs)

`AsyncFd::poll_recv` and `AsyncFd::poll_send` loop over
`poll_read_ready`/`poll_write_ready`.  One loop iteration consumes one
reactor report.  Inside a ready guard, `AsyncFdReadyGuard::try_io` runs the
native operation; per tokio's contract it clears the stored readiness and
reports `Err(TryIoError)` exactly when the operation returned a
would-block error, and otherwise hands the operation's result through.  The
reactor (plus the guarded I/O attempt it would admit) is embedded as a trace
of events, one per loop iteration. -/

/-- Result of the single guarded native I/O attempt. -/
inductive IoAttempt where
  | ok (n : Nat)
  | err (e : IoError)
  deriving DecidableEq, Repr

/-- One reactor report, as consumed by one iteration of the loop: the
readiness poll is pending, fails, or is ready with a guarded I/O attempt. -/
inductive ReadyEvent where
  | pending
  | readyErr (e : IoError)
  | ready (attempt : IoAttempt)
  deriving DecidableEq, Repr

/-- The value of `Poll<io::Result<usize>>`. -/
inductive PollRes where
  | pending
  | ok (n : Nat)
  | err (e : IoError)
  deriving DecidableEq, Repr

/-- `AsyncFd::poll_recv`: poll readiness; when ready, attempt the recv inside
the guard via `try_io`; a would-block attempt clears readiness and loops back
to the readiness poll (the `continue`); every other outcome returns. -/
def pollRecv : List ReadyEvent → PollRes
  | [] => PollRes.pending
  | ReadyEvent.pending :: _ => PollRes.pending
  | ReadyEvent.readyErr e :: _ => PollRes.err e
  | ReadyEvent.ready (IoAttempt.ok n) :: _ => PollRes.ok n
  | ReadyEvent.ready (IoAttempt.err e) :: rest =>
    if e.kind = ErrKind.wouldBlock then pollRecv rest else PollRes.err e

/-- `AsyncFd::poll_send`: same loop over `poll_write_ready` and the guarded
send. -/
def pollSend : List ReadyEvent → PollRes
  | [] => PollRes.pending
  | ReadyEvent.pending :: _ => PollRes.pending
  | ReadyEvent.readyErr e :: _ => PollRes.err e
  | ReadyEvent.ready (IoAttempt.ok n) :: _ => PollRes.ok n
  | ReadyEvent.ready (IoAttempt.err e) :: rest =>
    if e.kind = ErrKind.wouldBlock then pollSend rest else PollRes.err e

/-- A reactor trace whose single event is readiness with a successful
five-byte I/O attempt. -/
def okTrace : List ReadyEvent := [ReadyEvent.ready (IoAttempt.ok 5)]

/-- A reactor trace that first reports stale readiness (the guarded attempt
would-blocks) and then readiness with a successful attempt. -/
def wbTrace : List ReadyEvent := ReadyEvent.ready (IoAttempt.err wouldBlockErr) :: okTrace

/-! ### Builder configuration application (src/builder.rs lines 261-299)

`DeviceBuilder::config` applies the accumulated fields to the live device,
one `?`-propagated statement after the other.  The device is abstracted as
an oracle from setter calls to results, and a run records the setter calls
attempted in order, so that ordering and abort-on-first-error are
observable. -/

/-- The operating `Layer` enum, whose `#[default]` variant is L3. -/
inductive Layer where
  | l2
  | l3
  deriving DecidableEq, Repr

/-- `Layer::default()`. -/
def layerDefault : Layer := Layer.l3

/-- The `DeviceImpl` setter calls made by `DeviceBuilder::config`.  IPv4
addresses are `u32` bit patterns, IPv6 addresses `u128`, MAC addresses six
bytes. -/
inductive DevOp where
  | setMtu (m : Nat)
  | setMtuV6 (m : Nat)
  | setMetric (m : Nat)
  | setTxQueueLen (n : Nat)
  | setMacAddress (mac : List Nat)
  | setNetworkAddress (addr : Nat) (pfxLen : Nat) (dest : Option Nat)
  | addAddressV6 (addr : Nat) (pfxLen : Nat)
  | setEnabled (b : Bool)
  deriving DecidableEq, Repr

/-- A live device, abstracted as the result each setter call returns. -/
abbrev Dev : Type := DevOp → Except IoError Unit

/-- The state of `DeviceBuilder` when `config` runs.  Stored address and
prefix coercions are `io::Result`s, exactly as in the builder's `IPV4` and
`ipv6` field types. -/
structure DeviceBuilder where
  devName : Option String
  enabled : Option Bool
  mtu : Option Nat
  mtuV6 : Option Nat
  ipv4 : Option (Except IoError Nat × Except IoError Nat × Option (Except IoError Nat))
  ipv6 : Option (List (Except IoError Nat × Except IoError Nat))
  layer : Option Layer
  macAddr : Option (List Nat)
  metric : Option Nat
  txQueueLen : Option Nat
  deriving Repr

/-- The observable outcome of a `config` run: the setter calls attempted, in
order (a final failing call included), and the error if the run aborted. -/
abbrev ConfRes : Type := List DevOp × Option IoError

/-- `Option::transpose` on the stored optional destination coercion. -/
def transposeE (d : Option (Except IoError Nat)) : Except IoError (Option Nat) :=
  match d with
  | none => Except.ok none
  | some (Except.ok v) => Except.ok (some v)
  | some (Except.error e) => Except.error e

/-- One `device.set_xxx(...)?` call: record the attempt; on error abort with
it, otherwise continue with `k` (the rest of the function). -/
def stepOp (dev : Dev) (o : DevOp) (tr : List DevOp) (k : List DevOp → ConfRes) : ConfRes :=
  match dev o with
  | Except.ok _ => k (tr ++ [o])
  | Except.error e => (tr ++ [o], some e)

/-- Line `if let Some(mtu) = self.mtu { device.set_mtu(mtu)?; }`. -/
def confMtu (dev : Dev) (b : DeviceBuilder) (tr : List DevOp) (k : List DevOp → ConfRes) :
    ConfRes :=
  match b.mtu with
  | none => k tr
  | some m => stepOp dev (DevOp.setMtu m) tr k

/-- Line `if let Some(mtu) = self.mtu_v6 { device.set_mtu_v6(mtu)?; }`. -/
def confMtuV6 (dev : Dev) (b : DeviceBuilder) (tr : List DevOp) (k : List DevOp → ConfRes) :
    ConfRes :=
  match b.mtuV6 with
  | none => k tr
  | some m => stepOp dev (DevOp.setMtuV6 m) tr k

/-- Line `if let Some(metric) = self.metric { device.set_metric(metric)?; }`. -/
def confMetric (dev : Dev) (b : DeviceBuilder) (tr : List DevOp) (k : List DevOp → ConfRes) :
    ConfRes :=
  match b.metric with
  | none => k tr
  | some m => stepOp dev (DevOp.setMetric m) tr k

/-- Line `if let Some(tx_queue_len) = self.tx_queue_len { ...? }`. -/
def confTx (dev : Dev) (b : DeviceBuilder) (tr : List DevOp) (k : List DevOp → ConfRes) :
    ConfRes :=
  match b.txQueueLen with
  | none => k tr
  | some n => stepOp dev (DevOp.setTxQueueLen n) tr k

/-- Lines `if let Some(mac_addr) = self.mac_addr { if self.layer.unwrap_or_default()
== Layer::L2 { device.set_mac_address(mac_addr)?; } }`. -/
def confMac (dev : Dev) (b : DeviceBuilder) (tr : List DevOp) (k : List DevOp → ConfRes) :
    ConfRes :=
  match b.macAddr with
  | none => k tr
  | some mac =>
    if b.layer.getD layerDefault = Layer.l2 then stepOp dev (DevOp.setMacAddress mac) tr k
    else k tr

/-- The IPv4 block: unwrap the stored prefix, address and transposed
destination with `?`, then `device.set_network_address(...)?`. -/
def confIpv4 (dev : Dev) (b : DeviceBuilder) (tr : List DevOp) (k : List DevOp → ConfRes) :
    ConfRes :=
  match b.ipv4 with
  | none => k tr
  | some (a, p, d) =>
    match p with
    | Except.error e => (tr, some e)
    | Except.ok pv =>
      match a with
      | Except.error e => (tr, some e)
      | Except.ok av =>
        match transposeE d with
        | Except.error e => (tr, some e)
        | Except.ok dv => stepOp dev (DevOp.setNetworkAddress av pv dv) tr k

/-- The IPv6 loop body: per entry unwrap prefix then address with `?`, then
`device.add_address_v6(address, prefix)?`. -/
def confIpv6List (dev : Dev) :
    List (Except IoError Nat × Except IoError Nat) → List DevOp →
    (List DevOp → ConfRes) → ConfRes
  | [], tr, k => k tr
  | (a, p) :: rest, tr, k =>
    match p with
    | Except.error e => (tr, some e)
    | Except.ok pv =>
      match a with
      | Except.error e => (tr, some e)
      | Except.ok av =>
        stepOp dev (DevOp.addAddressV6 av pv) tr (fun t2 => confIpv6List dev rest t2 k)

/-- Line `if let Some(ipv6) = self.ipv6 { for (address, prefix) in ipv6 { ... } }`. -/
def confIpv6 (dev : Dev) (b : DeviceBuilder) (tr : List DevOp) (k : List DevOp → ConfRes) :
    ConfRes :=
  match b.ipv6 with
  | none => k tr
  | some l => confIpv6List dev l tr k

/-- Line `device.enabled(self.enabled.unwrap_or(true))?`. -/
def confEnabled (dev : Dev) (b : DeviceBuilder) (tr : List DevOp) (k : List DevOp → ConfRes) :
    ConfRes :=
  stepOp dev (DevOp.setEnabled (b.enabled.getD true)) tr k

/-- `DeviceBuilder::config`: the source's statement sequence, line for line,
each continuation being the rest of the function body. -/
def configRun (b : DeviceBuilder) (dev : Dev) : ConfRes :=
  confMtu dev b [] (fun t1 =>
    confMtuV6 dev b t1 (fun t2 =>
      confMetric dev b t2 (fun t3 =>
        confTx dev b t3 (fun t4 =>
          confMac dev b t4 (fun t5 =>
            confIpv4 dev b t5 (fun t6 =>
              confIpv6 dev b t6 (fun t7 =>
                confEnabled dev b t7 (fun t8 => (t8, none)))))))))

/-- A step of the application order stated by the claim: either a pure
validation of a stored coercion result or a device setter call. -/
inductive Step where
  | check (r : Except IoError Unit)
  | op (o : DevOp)
  deriving DecidableEq, Repr

/-- Run steps in order, aborting on the first failure, recording the setter
calls attempted. -/
def runSteps (dev : Dev) : List Step → List DevOp → ConfRes
  | [], tr => (tr, none)
  | Step.check (Except.ok _) :: rest, tr => runSteps dev rest tr
  | Step.check (Except.error e) :: _, tr => (tr, some e)
  | Step.op o :: rest, tr =>
    match dev o with
    | Except.ok _ => runSteps dev rest (tr ++ [o])
    | Except.error e => (tr ++ [o], some e)

/-- An optional field contributes its setter step exactly when it is set. -/
def optStep (f : Nat → DevOp) : Option Nat → List Step
  | none => []
  | some m => [Step.op (f m)]

/-- The claimed MAC step: applied only when the layer is L2. -/
def macSteps (layer : Option Layer) (mac : Option (List Nat)) : List Step :=
  match mac with
  | none => []
  | some m =>
    if layer.getD layerDefault = Layer.l2 then [Step.op (DevOp.setMacAddress m)] else []

/-- The claimed IPv4 step: validate the stored coercions (prefix, address,
destination in that order), then the one address setter call. -/
def ipv4Steps
    (f : Option (Except IoError Nat × Except IoError Nat × Option (Except IoError Nat))) :
    List Step :=
  match f with
  | none => []
  | some (a, p, d) =>
    match p with
    | Except.error e => [Step.check (Except.error e)]
    | Except.ok pv =>
      match a with
      | Except.error e => [Step.check (Except.error e)]
      | Except.ok av =>
        match transposeE d with
        | Except.error e => [Step.check (Except.error e)]
        | Except.ok dv => [Step.op (DevOp.setNetworkAddress av pv dv)]

/-- The claimed steps of one configured IPv6 entry. -/
def ipv6EntrySteps (ent : Except IoError Nat × Except IoError Nat) : List Step :=
  match ent with
  | (a, p) =>
    match p with
    | Except.error e => [Step.check (Except.error e)]
    | Except.ok pv =>
      match a with
      | Except.error e => [Step.check (Except.error e)]
      | Except.ok av => [Step.op (DevOp.addAddressV6 av pv)]

/-- The claimed IPv6 steps, in insertion order. -/
def ipv6StepsList : List (Except IoError Nat × Except IoError Nat) → List Step
  | [] => []
  | ent :: rest => ipv6EntrySteps ent ++ ipv6StepsList rest

/-- The fixed application order stated by the claim: MTU, then IPv6 MTU, then
routing metric, then transmit queue length, then MAC address (only in L2),
then the IPv4 network address, then every IPv6 address in insertion order,
then enabled/disabled last. -/
def specSteps (b : DeviceBuilder) : List Step :=
  optStep DevOp.setMtu b.mtu ++ optStep DevOp.setMtuV6 b.mtuV6 ++
  optStep DevOp.setMetric b.metric ++ optStep DevOp.setTxQueueLen b.txQueueLen ++
  macSteps b.layer b.macAddr ++ ipv4Steps b.ipv4 ++
  (match b.ipv6 with
   | none => []
   | some l => ipv6StepsList l) ++
  [Step.op (DevOp.setEnabled (b.enabled.getD true))]

/-- A step that succeeds under the device oracle. -/
def stepOk (dev : Dev) : Step → Prop
  | Step.check r => r = Except.ok ()
  | Step.op o => dev o = Except.ok ()

/-- A step that fails with error `e` under the device oracle. -/
def stepFails (dev : Dev) (s : Step) (e : IoError) : Prop :=
  match s with
  | Step.check r => r = Except.error e
  | Step.op o => dev o = Except.error e

/-- The setter calls of a list of (successful) steps. -/
def opsOf : List Step → List DevOp
  | [] => []
  | Step.check _ :: rest => opsOf rest
  | Step.op o :: rest => o :: opsOf rest

/-- The setter calls a failing step itself attempts. -/
def failOps : Step → List DevOp
  | Step.check _ => []
  | Step.op o => [o]

/-- Sequential composition: run a chunk of steps, then continue with `k`. -/
def contRun (dev : Dev) (steps : List Step) (tr : List DevOp) (k : List DevOp → ConfRes) :
    ConfRes :=
  match runSteps dev steps tr with
  | (t2, none) => k t2
  | (t2, some e) => (t2, some e)

/-- The error a failing-metric device witness returns. -/
def eW : IoError := ⟨ErrKind.otherKind, none, "metric failed"⟩

/-- A device oracle that fails every metric call and accepts everything
else. -/
def devW : Dev := fun o =>
  match o with
  | DevOp.setMetric _ => Except.error eW
  | _ => Except.ok ()

/-- A builder with MTU 1400 and metric 5 set and nothing else. -/
def bW : DeviceBuilder := ⟨none, none, some 1400, none, none, none, none, none, some 5, none⟩

/-! ### Wintun session write and read paths
(src/platform/windows/device.rs lines 383-451)

The vendor session is abstracted by the result its calls return; the Rust
side's packet-copy step (`io::copy`) is embedded by its length semantics:
copying a slice into a fixed-size sink succeeds with the full length when it
fits and fails with a WriteZero error otherwise. -/

/-- A `wintun::Error`: either a wrapped `io::Error` or another wintun error
(rendered by `format!("{}", e)` on the Rust side). -/
inductive WintunErr where
  | ioErr (e : IoError)
  | otherErr (s : String)
  deriving DecidableEq, Repr

/-- `windows_sys::Win32::Foundation::ERROR_BUFFER_OVERFLOW`, the raw OS error
code wintun reports when the send ring is full. -/
def errorBufferOverflow : Int := 111

/-- The `io::Error::new(Other, format!("{}", e))` wrapping of a non-Io
wintun error. -/
def otherWintunErr (s : String) : IoError := ⟨ErrKind.otherKind, none, s⟩

/-- The WriteZero error `io::copy` produces when the sink is too small. -/
def writeZeroErr : IoError := ⟨ErrKind.writeZero, none, "failed to write whole buffer"⟩

/-- `Tun::write_by_ref`: allocate a send packet of the buffer's size
(truncated to `u16`); an `Io` allocation error is returned as that I/O error
unchanged (no would-block mapping), any other wintun allocation error
becomes an `Other` I/O error; on success the buffer is copied into the
packet and the packet is sent.  `alloc` abstracts
`session.allocate_send_packet`, returning the capacity of the granted
packet. -/
def writeByRef (alloc : Nat → Except WintunErr Nat) (bufLen : Nat) : Except IoError Nat :=
  match alloc (bufLen % 2 ^ 16) with
  | Except.error (WintunErr.ioErr e) => Except.error e
  | Except.error (WintunErr.otherErr s) => Except.error (otherWintunErr s)
  | Except.ok cap =>
    if bufLen ≤ cap then Except.ok bufLen else Except.error writeZeroErr

/-- `Tun::try_write_by_ref`: identical to `write_by_ref` except that an `Io`
allocation error whose `raw_os_error().unwrap_or(0)` equals
`ERROR_BUFFER_OVERFLOW` is mapped to a would-block error. -/
def tryWriteByRef (alloc : Nat → Except WintunErr Nat) (bufLen : Nat) : Except IoError Nat :=
  match alloc (bufLen % 2 ^ 16) with
  | Except.error (WintunErr.ioErr e) =>
    if e.raw.getD 0 = errorBufferOverflow then Except.error wouldBlockErr
    else Except.error e
  | Except.error (WintunErr.otherErr s) => Except.error (otherWintunErr s)
  | Except.ok cap =>
    if bufLen ≤ cap then Except.ok bufLen else Except.error writeZeroErr

/-- `Tun::read_by_ref`: a successful `session.receive_blocking()` copies the
packet into the caller's buffer with `io::copy`; every `receive_blocking`
error `e` is surfaced as `io::Error::new(ConnectionAborted, e)`.  The
session error is carried as its message string. -/
def readByRef (recvR : Except String Nat) (bufLen : Nat) : Except IoError Nat :=
  match recvR with
  | Except.ok pktLen =>
    if pktLen ≤ bufLen then Except.ok pktLen else Except.error writeZeroErr
  | Except.error e => Except.error ⟨ErrKind.connectionAborted, none, e⟩

/-- The ring-full I/O error a saturated wintun session returns from
`allocate_send_packet`. -/
def ringFullIoErr : IoError := ⟨ErrKind.otherKind, some errorBufferOverflow, "ring full"⟩

/-- An allocator whose ring is always full. -/
def allocRingFull : Nat → Except WintunErr Nat :=
  fun _ => Except.error (WintunErr.ioErr ringFullIoErr)

/-! ### L2 device creation (src/platform/windows/device.rs lines 153-168)

The `Device::new` L2 branch: try `TapDevice::open(HARDWARE_ID, name)`; on
failure `TapDevice::create(HARDWARE_ID)?`, then `tap.set_name(name)`, whose
failure is propagated only when `config.name.is_some()`.  The three
native calls are abstracted by their results. -/

/-- The L2 creation branch of `Device::new`. -/
def deviceNewL2 (cfgName : Option String) (openR createR setNameR : Except IoError Unit) :
    Except IoError Unit :=
  match openR with
  | Except.ok _ => Except.ok ()
  | Except.error _ =>
    match createR with
    | Except.error e => Except.error e
    | Except.ok _ =>
      match setNameR with
      | Except.error e => if cfgName.isSome then Except.error e else Except.ok ()
      | Except.ok _ => Except.ok ()

/-! ### End-to-end scenario state (C8)

The wintun-backed (L3, default layer) device behind the builder scenario.
The adapter and the OS interface state are modelled from
src/platform/windows/device.rs: `mtu()` reads the adapter MTU, which the
source doc comments state is always `Ok(65535)` due to wintun, and
`set_mtu()` correspondingly has no effect; `address()` returns the first
IPv4 address the adapter reports; `netmask()` is
`get_netmask_of_address(address())`; `enabled(false)` shuts the session
down and `enabled(true)` does nothing.

Modelled from the spec: the `DeviceImpl` glue binding the builder's
`set_network_address(address, prefix, destination)` call to the
`netsh::set_interface_ip` invocation is not under src/ (only its callers
are); per section 6 the OS utility sets the static address/mask pair on the
interface, with the mask derived from the prefix length by
`ToIpv4Netmask::netmask`.  `set_mtu_v6` (also missing from src/) persists an
IPv6 MTU via the OS utility and does not affect the wintun adapter MTU. -/

/-- The fixed wintun adapter MTU (source doc comment: "The return value is
always `Ok(65535)` due to wintun"). -/
def wintunMtu : Nat := 65535

/-- The observable interface state of the wintun-backed device. -/
structure WinState where
  adapterAddrs : List Nat
  maskOf : List (Nat × Nat)
  sessionShutdown : Bool
  deriving DecidableEq, Repr

/-- The state right after `Device::new` for L3: no address configured, the
session running. -/
def initWinState : WinState := ⟨[], [], false⟩

/-- The crate's `Error::InvalidConfig`, as surfaced when no IPv4 address is
present. -/
def invalidConfigErr : IoError := ⟨ErrKind.invalidData, none, "invalid config"⟩

/-- `Device::mtu` for the Tun variant. -/
def tunMtu (_s : WinState) : Except IoError Nat := Except.ok wintunMtu

/-- `Device::set_mtu` for the Tun variant: no effect on the adapter MTU. -/
def tunSetMtu (s : WinState) (_m : Nat) : Except IoError WinState := Except.ok s

/-- `Device::address` for the Tun variant: the first IPv4 address of
`get_addresses()`, or `Error::InvalidConfig`. -/
def tunAddress (s : WinState) : Except IoError Nat :=
  match s.adapterAddrs with
  | [] => Except.error invalidConfigErr
  | a :: _ => Except.ok a

/-- `Device::netmask` for the Tun variant:
`get_netmask_of_address(self.address()?)`. -/
def tunNetmask (s : WinState) : Except IoError Nat :=
  match tunAddress s with
  | Except.error e => Except.error e
  | Except.ok a =>
    match s.maskOf.lookup a with
    | some m => Except.ok m
    | none => Except.error ⟨ErrKind.notFound, none, "netmask not found"⟩

/-- The device-state transition of each builder setter call on the
Tun-backed device (see the section comment for the spec-modelled glue). -/
def applyOp (s : WinState) : DevOp → Except IoError WinState
  | DevOp.setMtu m => tunSetMtu s m
  | DevOp.setMtuV6 _ => Except.ok s
  | DevOp.setMetric _ => Except.ok s
  | DevOp.setTxQueueLen _ => Except.ok s
  | DevOp.setMacAddress _ => Except.error ⟨ErrKind.unsupported, none, ""⟩
  | DevOp.setNetworkAddress a p _ =>
    Except.ok ⟨[a], [(a, maskVal32 p)], s.sessionShutdown⟩
  | DevOp.addAddressV6 _ _ => Except.ok s
  | DevOp.setEnabled v =>
    if v then Except.ok s else Except.ok ⟨s.adapterAddrs, s.maskOf, true⟩

/-- Apply the setter calls in order, stopping at the first failure. -/
def applyOps (s : WinState) : List DevOp → Except IoError WinState
  | [] => Except.ok s
  | o :: rest =>
    match applyOp s o with
    | Except.error e => Except.error e
    | Except.ok s2 => applyOps s2 rest

/-- The scenario builder: name "test0", IPv4 10.0.0.2/24, MTU 1400 (on
Windows `mtu(1400)` also sets the IPv6 MTU). -/
def builder08 : DeviceBuilder :=
  ⟨some ("test0"), none, some 1400, some 1400,
    some (Except.ok 167772162, Except.ok 24, none), none, none, none, none, none⟩

/-- The setter calls the scenario's `config` run performs (the device
accepts each). -/
def scenarioOps : List DevOp := (configRun builder08 (fun _ => Except.ok ())).1

/-- The device state after the scenario build. -/
def scenarioState : Except IoError WinState := applyOps initWinState scenarioOps

/-- `address()` after the scenario build. -/
def scenarioAddress : Except IoError Nat :=
  match scenarioState with
  | Except.error e => Except.error e
  | Except.ok s => tunAddress s

/-- `netmask()` after the scenario build. -/
def scenarioNetmask : Except IoError Nat :=
  match scenarioState with
  | Except.error e => Except.error e
  | Except.ok s => tunNetmask s

/-- `mtu()` after the scenario build. -/
def scenarioMtu : Except IoError Nat :=
  match scenarioState with
  | Except.error e => Except.error e
  | Except.ok s => tunMtu s

/-- Whether the device reports enabled (its session still running) after the
scenario build. -/
def scenarioEnabled : Except IoError Bool :=
  match scenarioState with
  | Except.error e => Except.error e
  | Except.ok s => Except.ok (!s.sessionShutdown)

/-! ### netsh invocations (src/platform/windows/netsh.rs)

`exe_cmd` hands a single formatted string to `cmd /C` (a shell);
`exe_command` executes a `Command` argument list directly.  An invocation is
embedded as whichever of the two shapes the source builds. -/

/-- How a netsh configuration call is executed: a single `cmd /C` command
line, or a program with an argument list. -/
inductive Invocation where
  | shellLine (line : String)
  | argList (prog : String) (args : List String)
  deriving DecidableEq, Repr

/-- Rust `{:?}` (Debug) formatting of one character of a string literal. -/
def rustDebugChar (c : Char) : String :=
  if c = '"' then "\\\""
  else if c = '\\' then "\\\\"
  else if c = '\n' then "\\n"
  else if c = '\t' then "\\t"
  else if c = '\r' then "\\r"
  else String.singleton c

/-- Rust `{:?}` (Debug) formatting of a string: wrap in quotes and escape. -/
def rustDebug (s : String) : String :=
  "\"" ++ String.join (s.data.map rustDebugChar) ++ "\""

/-- `set_interface_name`: a `cmd /C` line with both names interpolated via
`{:?}` (note the leading space of the format string). -/
def setInterfaceName (oldName newName : String) : Invocation :=
  Invocation.shellLine
    (" netsh interface set interface name=" ++ rustDebug oldName ++
      " newname=" ++ rustDebug newName)

/-- `set_interface_metric`: a `cmd /C` line interpolating only the numeric
index and metric. -/
def setInterfaceMetric (index metric : Nat) : Invocation :=
  Invocation.shellLine
    ("netsh interface ip set interface " ++ toString index ++
      " metric=" ++ toString metric)

/-- `set_interface_mtu`: a `cmd /C` line interpolating only the numeric
index and MTU (note the double space of the format string). -/
def setInterfaceMtu (index mtu : Nat) : Invocation :=
  Invocation.shellLine
    ("netsh interface ipv4 set subinterface " ++ toString index ++
      "  mtu=" ++ toString mtu ++ " store=persistent")

/-- `set_interface_ip`: a direct `netsh` argument list; addresses are
carried in their `Display` rendering. -/
def setInterfaceIp (index : Nat) (isV4 : Bool) (address netmask : String)
    (gateway : Option String) : Invocation :=
  Invocation.argList ("netsh")
    (["interface", if isV4 then "ipv4" else "ipv6", "set", "address",
      toString index, "source=static", "address=" ++ address,
      "mask=" ++ netmask] ++
      (match gateway with
       | none => []
       | some g => ["gateway=" ++ g]))

/-- The captured output of the spawned process. -/
structure CmdOutput where
  success : Bool
  stderrBytes : List Nat
  stdoutBytes : List Nat
  deriving DecidableEq, Repr

/-- The decoding `output` applies to a byte stream: `str::from_utf8` when it
succeeds, else the GBK decoder.  Both decoders are external library
functions, abstracted as parameters. -/
def decodeOut (utf8 : List Nat → Option String) (gbk : List Nat → String)
    (bs : List Nat) : String :=
  match utf8 bs with
  | some m => m
  | none => gbk bs

/-- `output`: success yields `Ok(())`; on a non-zero exit the message is the
decoded stderr when non-empty, else the decoded stdout when non-empty, else
empty, and the single error embeds the command and the message via
`format!("cmd={:?},out={:?}", cmd, msg)`. -/
def outputRes (utf8 : List Nat → Option String) (gbk : List Nat → String)
    (cmd : String) (out : CmdOutput) : Except IoError Unit :=
  if out.success then Except.ok ()
  else
    Except.error ⟨ErrKind.otherKind, none,
      "cmd=" ++ rustDebug cmd ++ ",out=" ++ rustDebug
        (if out.stderrBytes ≠ [] then decodeOut utf8 gbk out.stderrBytes
         else if out.stdoutBytes ≠ [] then decodeOut utf8 gbk out.stdoutBytes
         else "")⟩

/-- Scan a command line under cmd.exe quoting rules (every `"` toggles the
in-quotes state; backslash is not an escape character to cmd): `true` when
some `&` sits at an unquoted, hence command-separating, position. -/
def cmdUnquotedAmpAux : List Char → Bool → Bool
  | [], _ => false
  | c :: rest, inQ =>
    if c = '"' then cmdUnquotedAmpAux rest (!inQ)
    else if c = '&' then (if inQ then cmdUnquotedAmpAux rest inQ else true)
    else cmdUnquotedAmpAux rest inQ

/-- Whether a `cmd /C` line contains a command-separating `&`. -/
def cmdHasUnquotedAmp (s : String) : Bool := cmdUnquotedAmpAux s.data false

/-- Extract the shell line of an invocation, when it is one. -/
def shellLineOf : Invocation → Option String
  | Invocation.shellLine l => some l
  | Invocation.argList _ _ => none

/-- An interface name a caller could request: its inner quote toggles
cmd.exe out of the quoted region, exposing the following `&`. -/
def injName : String := "a\" & calc & \"b"

/-- A benign interface name. -/
def benignName : String := "tun7"

/-- The rename target used in the counterexample. -/
def newNameT : String := "t"

/-- A UTF-8 decoder stub that always fails (forcing the GBK fallback). -/
def utf8W : List Nat → Option String := fun _ => none

/-- A GBK decoder stub. -/
def gbkW : List Nat → String := fun _ => "decoded"

/-- A failing process output carrying one stderr byte. -/
def outErrW : CmdOutput := ⟨false, [255], []⟩

/-- A concrete executed command string. -/
def cmdW : String := "netsh x"

end TunRs

namespace TunRs

/-! ### Theorems for the netmask claims (trial slice) -/

set_option maxRecDepth 40000 in
/-- C4: for every in-range prefix length `p` (`p ≤ 32` for IPv4, `p ≤ 128`
for IPv6), `netmask(p)` succeeds with a mask whose leading-ones count is `p`,
whose total ones count is `p` (so every remaining bit is zero), and prefix
extraction from that mask returns `p` again. -/
theorem c4_netmask_roundtrip :
    (∀ p : Nat, p ≤ 32 →
      netmaskU8V4 p = Except.ok (maskVal32 p) ∧
      leadingOnes32 (maskVal32 p) = p ∧
      countOnes32 (maskVal32 p) = p ∧
      (∀ i : Nat, i < 32 - p → (maskVal32 p).testBit i = false) ∧
      pfxMask4 (maskVal32 p) = Except.ok p) ∧
    (∀ p : Nat, p ≤ 128 →
      netmaskU8V6 p = Except.ok (maskVal128 p) ∧
      leadingOnes128 (maskVal128 p) = p ∧
      countOnes128 (maskVal128 p) = p ∧
      (∀ i : Nat, i < 128 - p → (maskVal128 p).testBit i = false) ∧
      pfxMask6 (maskVal128 p) = Except.ok p) := by
  decide

/-- C4 witness: the round trip at the concrete prefixes 24 (IPv4) and 64
(IPv6). -/
theorem c4_netmask_roundtrip_witness :
    netmaskU8V4 24 = Except.ok (maskVal32 24) ∧ pfxMask4 (maskVal32 24) = Except.ok 24 ∧
    netmaskU8V6 64 = Except.ok (maskVal128 64) ∧ pfxMask6 (maskVal128 64) = Except.ok 64 := by
  refine ⟨(c4_netmask_roundtrip.1 24 (by decide)).1,
    (c4_netmask_roundtrip.1 24 (by decide)).2.2.2.2,
    (c4_netmask_roundtrip.2 64 (by decide)).1,
    (c4_netmask_roundtrip.2 64 (by decide)).2.2.2.2⟩

/-- C5: a mask-shaped address whose bit pattern is not a contiguous run of
ones from the most significant bit (its leading-ones count differs from its
total ones count) is rejected by prefix extraction with the explicit
"invalid netmask" validation error, and never yields a numeric prefix. -/
theorem c5_noncontiguous_mask_rejected (x y : Nat)
    (_hx : x < 2 ^ 32) (hlx : leadingOnes32 x ≠ countOnes32 x)
    (_hy : y < 2 ^ 128) (hly : leadingOnes128 y ≠ countOnes128 y) :
    pfxMask4 x = Except.error invalidNetmaskErr ∧
    (∀ n : Nat, pfxMask4 x ≠ Except.ok n) ∧
    pfxMask6 y = Except.error invalidNetmaskErr ∧
    (∀ n : Nat, pfxMask6 y ≠ Except.ok n) := by
  have h4 : pfxMask4 x = Except.error invalidNetmaskErr := by
    unfold pfxMask4
    rw [if_pos hlx]
  have h6 : pfxMask6 y = Except.error invalidNetmaskErr := by
    unfold pfxMask6
    rw [if_pos hly]
  refine ⟨h4, ?_, h6, ?_⟩
  · intro n hn
    rw [h4] at hn
    exact Except.noConfusion hn
  · intro n hn
    rw [h6] at hn
    exact Except.noConfusion hn

set_option maxRecDepth 40000 in
/-- C5 witness: the mask 255.0.255.0 (bit pattern 0xFF00FF00, leading-ones 8
but 16 ones in total) is rejected, and likewise its IPv6 analogue
ff00:ff00:: . -/
theorem c5_noncontiguous_mask_rejected_witness :
    pfxMask4 4278255360 = Except.error invalidNetmaskErr ∧
    pfxMask6 (4278255360 * 2 ^ 96) = Except.error invalidNetmaskErr := by
  have h := c5_noncontiguous_mask_rejected 4278255360 (4278255360 * 2 ^ 96)
    (by decide) (by decide) (by decide) (by decide)
  exact ⟨h.1, h.2.2.1⟩

set_option maxRecDepth 40000 in
/-- C10: for every in-range prefix length the netmask computation is total
and returns `Ok`: the left shift by `width - p` is guarded by `checked_shl`
with `unwrap_or(0)`, so the overflowing shift at `p = 0` (where
`checked_shl` reports overflow with `none`) yields the all-zeros address
rather than a panic or an unspecified value. -/
theorem c10_netmask_total :
    (∀ p : Nat, p ≤ 32 → exOk (netmaskU8V4 p) = true) ∧
    netmaskU8V4 0 = Except.ok 0 ∧
    checkedShl32 u32Max 32 = none ∧
    (∀ p : Nat, p ≤ 128 → exOk (netmaskU8V6 p) = true) ∧
    netmaskU8V6 0 = Except.ok 0 ∧
    checkedShl128 u128Max 128 = none := by
  decide

/-- C10 witness: totality instantiated at the boundary prefixes 0 and the
full width. -/
theorem c10_netmask_total_witness :
    exOk (netmaskU8V4 0) = true ∧ exOk (netmaskU8V4 32) = true ∧
    exOk (netmaskU8V6 0) = true ∧ exOk (netmaskU8V6 128) = true := by
  exact ⟨c10_netmask_total.1 0 (by decide), c10_netmask_total.1 32 (by decide),
    c10_netmask_total.2.2.2.1 0 (by decide), c10_netmask_total.2.2.2.1 128 (by decide)⟩

/-- Helper: when every readiness-poll failure in the trace is a genuine
(non-would-block) error, `pollRecv` never resolves to a would-block error. -/
theorem pollRecv_no_wouldblock (tr : List ReadyEvent) :
    (∀ e2, ReadyEvent.readyErr e2 ∈ tr → e2.kind ≠ ErrKind.wouldBlock) →
    ∀ e2, pollRecv tr = PollRes.err e2 → e2.kind ≠ ErrKind.wouldBlock := by
  induction tr with
  | nil => intro _ e2 h2; simp [pollRecv] at h2
  | cons ev rest ih =>
    intro hre e2 h2
    cases ev with
    | pending => simp [pollRecv] at h2
    | readyErr e3 =>
      have h3 : e3 = e2 := by simpa [pollRecv] using h2
      exact h3 ▸ hre e3 (List.mem_cons_self _ _)
    | ready att =>
      cases att with
      | ok n => simp [pollRecv] at h2
      | err e3 =>
        by_cases hwb : e3.kind = ErrKind.wouldBlock
        · have h4 : pollRecv rest = PollRes.err e2 := by
            simpa [pollRecv, hwb] using h2
          exact ih (fun e4 hm => hre e4 (List.mem_cons_of_mem _ hm)) e2 h4
        · have h3 : e3 = e2 := by simpa [pollRecv, hwb] using h2
          exact h3 ▸ hwb

/-- Helper: the send analogue of `pollRecv_no_wouldblock`. -/
theorem pollSend_no_wouldblock (tr : List ReadyEvent) :
    (∀ e2, ReadyEvent.readyErr e2 ∈ tr → e2.kind ≠ ErrKind.wouldBlock) →
    ∀ e2, pollSend tr = PollRes.err e2 → e2.kind ≠ ErrKind.wouldBlock := by
  induction tr with
  | nil => intro _ e2 h2; simp [pollSend] at h2
  | cons ev rest ih =>
    intro hre e2 h2
    cases ev with
    | pending => simp [pollSend] at h2
    | readyErr e3 =>
      have h3 : e3 = e2 := by simpa [pollSend] using h2
      exact h3 ▸ hre e3 (List.mem_cons_self _ _)
    | ready att =>
      cases att with
      | ok n => simp [pollSend] at h2
      | err e3 =>
        by_cases hwb : e3.kind = ErrKind.wouldBlock
        · have h4 : pollSend rest = PollRes.err e2 := by
            simpa [pollSend, hwb] using h2
          exact ih (fun e4 hm => hre e4 (List.mem_cons_of_mem _ hm)) e2 h4
        · have h3 : e3 = e2 := by simpa [pollSend, hwb] using h2
          exact h3 ▸ hwb

/-- C1: in `poll_recv` and `poll_send`, a would-block result of the I/O
attempt after readiness was reported clears the readiness and retries the
readiness check within the same call (the iteration is discarded and the
loop continues on the remaining reactor trace); any non-would-block attempt
error is surfaced unconditionally; and, provided readiness-poll failures
themselves are genuine errors, the call never resolves to `Poll::Ready` with
a would-block error. -/
theorem c1_poll_wouldblock_retry (tr rest : List ReadyEvent) (e : IoError)
    (hre : ∀ e2, ReadyEvent.readyErr e2 ∈ tr → e2.kind ≠ ErrKind.wouldBlock) :
    (e.kind = ErrKind.wouldBlock →
      pollRecv (ReadyEvent.ready (IoAttempt.err e) :: rest) = pollRecv rest ∧
      pollSend (ReadyEvent.ready (IoAttempt.err e) :: rest) = pollSend rest) ∧
    (e.kind ≠ ErrKind.wouldBlock →
      pollRecv (ReadyEvent.ready (IoAttempt.err e) :: rest) = PollRes.err e ∧
      pollSend (ReadyEvent.ready (IoAttempt.err e) :: rest) = PollRes.err e) ∧
    (∀ e2, pollRecv tr = PollRes.err e2 → e2.kind ≠ ErrKind.wouldBlock) ∧
    (∀ e2, pollSend tr = PollRes.err e2 → e2.kind ≠ ErrKind.wouldBlock) := by
  refine ⟨fun h => ⟨by simp [pollRecv, h], by simp [pollSend, h]⟩,
    fun h => ⟨by simp [pollRecv, h], by simp [pollSend, h]⟩,
    pollRecv_no_wouldblock tr hre, pollSend_no_wouldblock tr hre⟩

/-- C1 witness: on a trace whose first readiness is stale, the call retries
on the remaining trace and resolves to the successful attempt. -/
theorem c1_poll_wouldblock_retry_witness :
    pollRecv wbTrace = pollRecv okTrace ∧ pollSend wbTrace = pollSend okTrace ∧
    pollRecv wbTrace = PollRes.ok 5 := by
  have hre : ∀ e2, ReadyEvent.readyErr e2 ∈ okTrace → e2.kind ≠ ErrKind.wouldBlock := by
    intro e2 hm
    simp [okTrace] at hm
  have h := c1_poll_wouldblock_retry okTrace okTrace wouldBlockErr hre
  exact ⟨(h.1 rfl).1, (h.1 rfl).2, by decide⟩

/-- Helper: running an empty chunk just continues. -/
theorem contRun_nil (dev : Dev) (tr : List DevOp) (k : List DevOp → ConfRes) :
    contRun dev [] tr k = k tr := by
  simp [contRun, runSteps]

/-- Helper: `contRun` splits over list append. -/
theorem contRun_append (dev : Dev) (xs ys : List Step) (tr : List DevOp)
    (k : List DevOp → ConfRes) :
    contRun dev (xs ++ ys) tr k = contRun dev xs tr (fun t => contRun dev ys t k) := by
  induction xs generalizing tr with
  | nil => simp [contRun, runSteps]
  | cons s rest ih =>
    cases s with
    | check r =>
      cases r with
      | ok u => simpa [contRun, runSteps] using ih tr
      | error e => simp [contRun, runSteps]
    | op o =>
      cases hd : dev o with
      | ok u => simpa [contRun, runSteps, hd] using ih (tr ++ [o])
      | error e => simp [contRun, runSteps, hd]

/-- Helper: the identity continuation turns `contRun` back into `runSteps`. -/
theorem contRun_id (dev : Dev) (steps : List Step) (tr : List DevOp) :
    contRun dev steps tr (fun t => (t, none)) = runSteps dev steps tr := by
  unfold contRun
  cases h : runSteps dev steps tr with
  | mk t2 o => cases o <;> simp

/-- Helper: the MTU line is the MTU chunk of the spec order. -/
theorem confMtu_eq (dev : Dev) (b : DeviceBuilder) (tr : List DevOp)
    (k : List DevOp → ConfRes) :
    confMtu dev b tr k = contRun dev (optStep DevOp.setMtu b.mtu) tr k := by
  cases hm : b.mtu with
  | none => simp [confMtu, hm, optStep, contRun, runSteps]
  | some m =>
    cases hd : dev (DevOp.setMtu m) with
    | ok u => simp [confMtu, hm, optStep, contRun, runSteps, stepOp, hd]
    | error e => simp [confMtu, hm, optStep, contRun, runSteps, stepOp, hd]

/-- Helper: the IPv6-MTU line is its chunk of the spec order. -/
theorem confMtuV6_eq (dev : Dev) (b : DeviceBuilder) (tr : List DevOp)
    (k : List DevOp → ConfRes) :
    confMtuV6 dev b tr k = contRun dev (optStep DevOp.setMtuV6 b.mtuV6) tr k := by
  cases hm : b.mtuV6 with
  | none => simp [confMtuV6, hm, optStep, contRun, runSteps]
  | some m =>
    cases hd : dev (DevOp.setMtuV6 m) with
    | ok u => simp [confMtuV6, hm, optStep, contRun, runSteps, stepOp, hd]
    | error e => simp [confMtuV6, hm, optStep, contRun, runSteps, stepOp, hd]

/-- Helper: the metric line is its chunk of the spec order. -/
theorem confMetric_eq (dev : Dev) (b : DeviceBuilder) (tr : List DevOp)
    (k : List DevOp → ConfRes) :
    confMetric dev b tr k = contRun dev (optStep DevOp.setMetric b.metric) tr k := by
  cases hm : b.metric with
  | none => simp [confMetric, hm, optStep, contRun, runSteps]
  | some m =>
    cases hd : dev (DevOp.setMetric m) with
    | ok u => simp [confMetric, hm, optStep, contRun, runSteps, stepOp, hd]
    | error e => simp [confMetric, hm, optStep, contRun, runSteps, stepOp, hd]

/-- Helper: the transmit-queue line is its chunk of the spec order. -/
theorem confTx_eq (dev : Dev) (b : DeviceBuilder) (tr : List DevOp)
    (k : List DevOp → ConfRes) :
    confTx dev b tr k = contRun dev (optStep DevOp.setTxQueueLen b.txQueueLen) tr k := by
  cases hm : b.txQueueLen with
  | none => simp [confTx, hm, optStep, contRun, runSteps]
  | some n =>
    cases hd : dev (DevOp.setTxQueueLen n) with
    | ok u => simp [confTx, hm, optStep, contRun, runSteps, stepOp, hd]
    | error e => simp [confTx, hm, optStep, contRun, runSteps, stepOp, hd]

/-- Helper: the MAC line is its chunk of the spec order. -/
theorem confMac_eq (dev : Dev) (b : DeviceBuilder) (tr : List DevOp)
    (k : List DevOp → ConfRes) :
    confMac dev b tr k = contRun dev (macSteps b.layer b.macAddr) tr k := by
  cases hm : b.macAddr with
  | none => simp [confMac, hm, macSteps, contRun, runSteps]
  | some mac =>
    by_cases hl : b.layer.getD layerDefault = Layer.l2
    · cases hd : dev (DevOp.setMacAddress mac) with
      | ok u => simp [confMac, hm, macSteps, contRun, runSteps, stepOp, hd, hl]
      | error e => simp [confMac, hm, macSteps, contRun, runSteps, stepOp, hd, hl]
    · simp [confMac, hm, macSteps, contRun, runSteps, hl]

/-- Helper: the IPv4 block is its chunk of the spec order. -/
theorem confIpv4_eq (dev : Dev) (b : DeviceBuilder) (tr : List DevOp)
    (k : List DevOp → ConfRes) :
    confIpv4 dev b tr k = contRun dev (ipv4Steps b.ipv4) tr k := by
  cases hm : b.ipv4 with
  | none => simp [confIpv4, hm, ipv4Steps, contRun, runSteps]
  | some t =>
    obtain ⟨a, p, d⟩ := t
    cases p with
    | error e => simp [confIpv4, hm, ipv4Steps, contRun, runSteps]
    | ok pv =>
      cases a with
      | error e => simp [confIpv4, hm, ipv4Steps, contRun, runSteps]
      | ok av =>
        cases ht : transposeE d with
        | error e => simp [confIpv4, hm, ipv4Steps, contRun, runSteps, ht]
        | ok dv =>
          cases hd : dev (DevOp.setNetworkAddress av pv dv) with
          | ok u => simp [confIpv4, hm, ipv4Steps, contRun, runSteps, stepOp, ht, hd]
          | error e => simp [confIpv4, hm, ipv4Steps, contRun, runSteps, stepOp, ht, hd]

/-- Helper: the IPv6 loop is the concatenation of its per-entry chunks. -/
theorem confIpv6List_eq (dev : Dev)
    (l : List (Except IoError Nat × Except IoError Nat)) (tr : List DevOp)
    (k : List DevOp → ConfRes) :
    confIpv6List dev l tr k = contRun dev (ipv6StepsList l) tr k := by
  induction l generalizing tr with
  | nil => simp [confIpv6List, ipv6StepsList, contRun, runSteps]
  | cons ent rest ih =>
    obtain ⟨a, p⟩ := ent
    rw [show ipv6StepsList ((a, p) :: rest) = ipv6EntrySteps (a, p) ++ ipv6StepsList rest
      from rfl]
    rw [contRun_append]
    cases p with
    | error e => simp [confIpv6List, ipv6EntrySteps, contRun, runSteps]
    | ok pv =>
      cases a with
      | error e => simp [confIpv6List, ipv6EntrySteps, contRun, runSteps]
      | ok av =>
        cases hd : dev (DevOp.addAddressV6 av pv) with
        | ok u =>
          simpa [confIpv6List, ipv6EntrySteps, contRun, runSteps, stepOp, hd]
            using ih (tr ++ [DevOp.addAddressV6 av pv])
        | error e => simp [confIpv6List, ipv6EntrySteps, contRun, runSteps, stepOp, hd]

/-- Helper: the IPv6 line is its chunk of the spec order. -/
theorem confIpv6_eq (dev : Dev) (b : DeviceBuilder) (tr : List DevOp)
    (k : List DevOp → ConfRes) :
    confIpv6 dev b tr k =
      contRun dev
        (match b.ipv6 with
         | none => []
         | some l => ipv6StepsList l) tr k := by
  cases hm : b.ipv6 with
  | none => simp [confIpv6, hm, contRun, runSteps]
  | some l => simpa [confIpv6, hm] using confIpv6List_eq dev l tr k

/-- Helper: the enabled line is its chunk of the spec order. -/
theorem confEnabled_eq (dev : Dev) (b : DeviceBuilder) (tr : List DevOp)
    (k : List DevOp → ConfRes) :
    confEnabled dev b tr k =
      contRun dev [Step.op (DevOp.setEnabled (b.enabled.getD true))] tr k := by
  cases hd : dev (DevOp.setEnabled (b.enabled.getD true)) with
  | ok u => simp [confEnabled, contRun, runSteps, stepOp, hd]
  | error e => simp [confEnabled, contRun, runSteps, stepOp, hd]

/-- Helper: `config` is exactly the claimed fixed order run. -/
theorem configRun_eq (b : DeviceBuilder) (dev : Dev) :
    configRun b dev = runSteps dev (specSteps b) [] := by
  rw [← contRun_id dev (specSteps b) []]
  unfold configRun specSteps
  simp only [List.append_assoc]
  rw [confMtu_eq, contRun_append]
  congr 1
  funext t1
  rw [confMtuV6_eq, contRun_append]
  congr 1
  funext t2
  rw [confMetric_eq, contRun_append]
  congr 1
  funext t3
  rw [confTx_eq, contRun_append]
  congr 1
  funext t4
  rw [confMac_eq, contRun_append]
  congr 1
  funext t5
  rw [confIpv4_eq, contRun_append]
  congr 1
  funext t6
  rw [confIpv6_eq, contRun_append]
  congr 1
  funext t7
  rw [confEnabled_eq]

/-- Helper: an aborted `runSteps` run stops at the first failing step: every
earlier step succeeded, the error is that step's, and no later setter call
was attempted. -/
theorem runSteps_err (dev : Dev) (steps : List Step) (tr0 tr : List DevOp) (e : IoError)
    (h : runSteps dev steps tr0 = (tr, some e)) :
    ∃ pre s post, steps = pre ++ s :: post ∧
      (∀ s2, s2 ∈ pre → stepOk dev s2) ∧ stepFails dev s e ∧
      tr = tr0 ++ opsOf pre ++ failOps s := by
  induction steps generalizing tr0 with
  | nil => simp [runSteps] at h
  | cons s rest ih =>
    cases s with
    | check r =>
      cases r with
      | ok u =>
        have h2 : runSteps dev rest tr0 = (tr, some e) := by
          simpa [runSteps] using h
        obtain ⟨pre, s2, post, hsteps, hok, hfail, htr⟩ := ih tr0 h2
        refine ⟨Step.check (Except.ok u) :: pre, s2, post, by rw [hsteps]; rfl, ?_, hfail, ?_⟩
        · intro s3 hs3
          rcases List.mem_cons.mp hs3 with h3 | h3
          · subst h3; rfl
          · exact hok s3 h3
        · simpa [opsOf] using htr
      | error e2 =>
        have h2 : tr0 = tr ∧ e2 = e := by
          simpa [runSteps] using h
        refine ⟨[], Step.check (Except.error e2), rest, rfl, by simp, ?_, ?_⟩
        · show Except.error e2 = Except.error e
          rw [h2.2]
        · simp [opsOf, failOps, h2.1]
    | op o =>
      cases hd : dev o with
      | ok u =>
        have h2 : runSteps dev rest (tr0 ++ [o]) = (tr, some e) := by
          simpa [runSteps, hd] using h
        obtain ⟨pre, s2, post, hsteps, hok, hfail, htr⟩ := ih (tr0 ++ [o]) h2
        refine ⟨Step.op o :: pre, s2, post, by rw [hsteps]; rfl, ?_, hfail, ?_⟩
        · intro s3 hs3
          rcases List.mem_cons.mp hs3 with h3 | h3
          · subst h3
            show dev o = Except.ok ()
            rw [hd]
          · exact hok s3 h3
        · rw [htr]
          simp [opsOf]
      | error e2 =>
        have h2 : tr0 ++ [o] = tr ∧ e2 = e := by
          simpa [runSteps, hd] using h
        refine ⟨[], Step.op o, rest, rfl, by simp, ?_, ?_⟩
        · show dev o = Except.error e
          rw [hd, h2.2]
        · simp [opsOf, failOps, h2.1.symm]

/-- C2: `DeviceBuilder::config` applies the set fields in exactly the fixed
order MTU, IPv6 MTU, routing metric, transmit queue length, MAC address
(only when the layer is L2), the IPv4 network address, every configured IPv6
address in insertion order, and enabled/disabled last; and when any step
fails, every earlier step succeeded, no later step is attempted, and that
first error is returned. -/
theorem c2_config_fixed_order (b : DeviceBuilder) (dev : Dev) :
    configRun b dev = runSteps dev (specSteps b) [] ∧
    (∀ tr e, configRun b dev = (tr, some e) →
      ∃ pre s post, specSteps b = pre ++ s :: post ∧
        (∀ s2, s2 ∈ pre → stepOk dev s2) ∧ stepFails dev s e ∧
        tr = opsOf pre ++ failOps s) := by
  refine ⟨configRun_eq b dev, ?_⟩
  intro tr e h
  rw [configRun_eq b dev] at h
  obtain ⟨pre, s, post, hsteps, hok, hfail, htr⟩ := runSteps_err dev (specSteps b) [] tr e h
  exact ⟨pre, s, post, hsteps, hok, hfail, by simpa using htr⟩

/-- C2 witness: a builder with MTU 1400 and metric 5 against a device that
rejects metric calls attempts exactly the MTU call then the failing metric
call, and the run aborts with the metric error before any later step. -/
theorem c2_config_fixed_order_witness :
    configRun bW devW = ([DevOp.setMtu 1400, DevOp.setMetric 5], some eW) ∧
    (∃ pre s post, specSteps bW = pre ++ s :: post ∧
      (∀ s2, s2 ∈ pre → stepOk devW s2) ∧ stepFails devW s eW ∧
      [DevOp.setMtu 1400, DevOp.setMetric 5] = opsOf pre ++ failOps s) := by
  have h1 : configRun bW devW = ([DevOp.setMtu 1400, DevOp.setMetric 5], some eW) := rfl
  exact ⟨h1, (c2_config_fixed_order bW devW).2 _ eW h1⟩

/-- C3: when `allocate_send_packet` fails with an `Io` error whose raw OS
code is the ring-full code `ERROR_BUFFER_OVERFLOW`, `try_write_by_ref`
returns a would-block error; an `Io` allocation error with any other code is
returned as that I/O error, and a non-Io allocation error becomes a fatal
`Other` I/O error; the blocking `write_by_ref` surfaces the `Io` allocation
error unchanged — no would-block mapping — and also turns a non-Io error
into a fatal `Other` error. -/
theorem c3_ring_full_wouldblock (alloc : Nat → Except WintunErr Nat) (bufLen : Nat)
    (e : IoError) (s : String) :
    (alloc (bufLen % 2 ^ 16) = Except.error (WintunErr.ioErr e) →
      (e.raw.getD 0 = errorBufferOverflow →
        tryWriteByRef alloc bufLen = Except.error wouldBlockErr) ∧
      (e.raw.getD 0 ≠ errorBufferOverflow →
        tryWriteByRef alloc bufLen = Except.error e) ∧
      writeByRef alloc bufLen = Except.error e) ∧
    (alloc (bufLen % 2 ^ 16) = Except.error (WintunErr.otherErr s) →
      tryWriteByRef alloc bufLen = Except.error (otherWintunErr s) ∧
      writeByRef alloc bufLen = Except.error (otherWintunErr s)) := by
  constructor
  · intro ha
    refine ⟨fun hr => ?_, fun hr => ?_, ?_⟩
    · simp only [tryWriteByRef]
      rw [ha]
      simp [hr]
    · simp only [tryWriteByRef]
      rw [ha]
      simp [hr]
    · simp only [writeByRef]
      rw [ha]
  · intro ha
    constructor
    · simp only [tryWriteByRef]
      rw [ha]
    · simp only [writeByRef]
      rw [ha]

/-- C3 witness: against an always-full ring, the non-blocking write of a
100-byte packet would-blocks while the blocking write surfaces the ring-full
I/O error itself. -/
theorem c3_ring_full_wouldblock_witness :
    tryWriteByRef allocRingFull 100 = Except.error wouldBlockErr ∧
    writeByRef allocRingFull 100 = Except.error ringFullIoErr := by
  have h := c3_ring_full_wouldblock allocRingFull 100 ringFullIoErr ""
  have ha : allocRingFull (100 % 2 ^ 16) = Except.error (WintunErr.ioErr ringFullIoErr) := rfl
  exact ⟨(h.1 ha).1 (by decide), (h.1 ha).2.2⟩

/-- C6: in the L2 creation branch, a rename failure after creating the
device is swallowed exactly when the caller did not request a name
(`config.name` is `None`) and propagated when a name was requested; an
open success skips rename entirely, a create failure always propagates, and
no failure other than the rename is swallowed on the create path. -/
theorem c6_rename_swallowed_iff_unnamed (cfgName : Option String) (nm : String)
    (eo ec es : IoError) (c s : Except IoError Unit) :
    deviceNewL2 cfgName (Except.ok ()) c s = Except.ok () ∧
    deviceNewL2 cfgName (Except.error eo) (Except.error ec) s = Except.error ec ∧
    deviceNewL2 cfgName (Except.error eo) (Except.ok ()) (Except.error es) =
      (if cfgName.isSome then Except.error es else Except.ok ()) ∧
    deviceNewL2 none (Except.error eo) (Except.ok ()) (Except.error es) = Except.ok () ∧
    deviceNewL2 (some nm) (Except.error eo) (Except.ok ()) (Except.error es) =
      Except.error es ∧
    deviceNewL2 cfgName (Except.error eo) (Except.ok ()) (Except.ok ()) = Except.ok () := by
  cases cfgName <;> simp [deviceNewL2]

/-- C7: every error of the blocking session receive is surfaced by
`Tun::read_by_ref` as an error whose kind is the explicit
`ConnectionAborted` condition carrying the session error, so a read in
flight during shutdown resolves to the aborted-connection condition and not
to a generic I/O failure. -/
theorem c7_read_aborted_kind (e : String) (n : Nat) :
    readByRef (Except.error e) n =
      Except.error ⟨ErrKind.connectionAborted, none, e⟩ ∧
    (⟨ErrKind.connectionAborted, none, e⟩ : IoError).kind = ErrKind.connectionAborted ∧
    exOk (readByRef (Except.error e) n) = false := by
  exact ⟨rfl, rfl, rfl⟩

/-- C8 counterexample: in the build(name="test0", ipv4=10.0.0.2/24,
mtu=1400) scenario, the device's `mtu()` returns the wintun-fixed 65535 and
not 1400 (the source documents that `set_mtu` has no effect and `mtu()` is
always `Ok(65535)` on the wintun driver), so the claimed conjunction fails
at this concrete input. -/
theorem c8_scenario_counterexample :
    ¬ (scenarioAddress = Except.ok 167772162 ∧
       scenarioNetmask = Except.ok 4294967040 ∧
       scenarioMtu = Except.ok 1400 ∧
       scenarioEnabled = Except.ok true) ∧
    scenarioMtu = Except.ok 65535 := by
  decide

/-- C8 (amended): after the scenario build, `address()` returns 10.0.0.2,
`netmask()` returns 255.255.255.0, the device reports enabled, and `mtu()`
returns the wintun-fixed 65535 rather than the configured 1400. -/
theorem c8_amended_scenario :
    scenarioAddress = Except.ok 167772162 ∧
    scenarioNetmask = Except.ok 4294967040 ∧
    scenarioMtu = Except.ok wintunMtu ∧
    scenarioEnabled = Except.ok true := by
  decide

/-- C9 counterexample: `set_interface_name` interpolates the caller-supplied
names into a `cmd /C` shell command line, and the Rust `{:?}` quoting it
applies is not cmd.exe quoting: the concrete name `a" & calc & "b` yields a
line whose `&` sits at a cmd-unquoted position (a command separator),
while a benign name yields none — the command-line structure depends on the
raw caller string, refuting the "never interpolates unsanitized strings
into a shell command line" part of the claim. -/
theorem c9_shell_interpolation_counterexample :
    setInterfaceName injName newNameT =
      Invocation.shellLine
        (" netsh interface set interface name=\"a\\\" & calc & \\\"b\" newname=\"t\"") ∧
    (shellLineOf (setInterfaceName injName newNameT)).map cmdHasUnquotedAmp = some true ∧
    (shellLineOf (setInterfaceName benignName newNameT)).map cmdHasUnquotedAmp =
      some false := by
  decide

/-- C9 (amended): `set_interface_ip` builds a deterministic `netsh` argument
list (no shell) from its inputs; the metric and MTU invocations are shell
lines interpolating only numerals; `set_interface_name` is a shell line
embedding the caller-supplied names via Rust debug quoting (not shell
quoting); and on non-zero exit the single error embeds the executed command
together with stderr when non-empty — else stdout, else the empty string —
decoded as UTF-8 with the GBK fallback. -/
theorem c9_amended_netsh (idx met mtu2 : Nat) (isV4 : Bool) (a m g old nm2 : String)
    (utf8 : List Nat → Option String) (gbk : List Nat → String) (cmd : String)
    (out : CmdOutput) :
    setInterfaceIp idx isV4 a m none =
      Invocation.argList ("netsh")
        ["interface", if isV4 then "ipv4" else "ipv6", "set", "address",
          toString idx, "source=static", "address=" ++ a, "mask=" ++ m] ∧
    setInterfaceIp idx isV4 a m (some g) =
      Invocation.argList ("netsh")
        ["interface", if isV4 then "ipv4" else "ipv6", "set", "address",
          toString idx, "source=static", "address=" ++ a, "mask=" ++ m,
          "gateway=" ++ g] ∧
    setInterfaceMetric idx met =
      Invocation.shellLine
        ("netsh interface ip set interface " ++ toString idx ++
          " metric=" ++ toString met) ∧
    setInterfaceMtu idx mtu2 =
      Invocation.shellLine
        ("netsh interface ipv4 set subinterface " ++ toString idx ++
          "  mtu=" ++ toString mtu2 ++ " store=persistent") ∧
    setInterfaceName old nm2 =
      Invocation.shellLine
        (" netsh interface set interface name=" ++ rustDebug old ++
          " newname=" ++ rustDebug nm2) ∧
    (out.success = true → outputRes utf8 gbk cmd out = Except.ok ()) ∧
    (out.success = false → out.stderrBytes ≠ [] →
      outputRes utf8 gbk cmd out =
        Except.error ⟨ErrKind.otherKind, none,
          "cmd=" ++ rustDebug cmd ++ ",out=" ++
            rustDebug (decodeOut utf8 gbk out.stderrBytes)⟩) ∧
    (out.success = false → out.stderrBytes = [] → out.stdoutBytes ≠ [] →
      outputRes utf8 gbk cmd out =
        Except.error ⟨ErrKind.otherKind, none,
          "cmd=" ++ rustDebug cmd ++ ",out=" ++
            rustDebug (decodeOut utf8 gbk out.stdoutBytes)⟩) ∧
    (out.success = false → out.stderrBytes = [] → out.stdoutBytes = [] →
      outputRes utf8 gbk cmd out =
        Except.error ⟨ErrKind.otherKind, none,
          "cmd=" ++ rustDebug cmd ++ ",out=" ++ rustDebug ("")⟩) := by
  refine ⟨rfl, rfl, rfl, rfl, rfl, ?_, ?_, ?_, ?_⟩
  · intro h
    simp [outputRes, h]
  · intro h h2
    simp [outputRes, h, h2]
  · intro h h2 h3
    simp [outputRes, h, h2, h3]
  · intro h h2 h3
    simp [outputRes, h, h2, h3]

/-- C9 witness: the amended statement at a concrete failing invocation:
UTF-8 decoding fails on the byte 255, so the GBK fallback decodes stderr,
and the error message embeds the command and that decoding. -/
theorem c9_amended_netsh_witness :
    setInterfaceIp 5 true ("10.0.0.2") ("255.255.255.0") none =
      Invocation.argList ("netsh")
        ["interface", "ipv4", "set", "address", "5", "source=static",
          "address=10.0.0.2", "mask=255.255.255.0"] ∧
    outputRes utf8W gbkW cmdW outErrW =
      Except.error ⟨ErrKind.otherKind, none,
        "cmd=" ++ rustDebug cmdW ++ ",out=" ++
          rustDebug (decodeOut utf8W gbkW [255])⟩ := by
  have h := c9_amended_netsh 5 0 0 true ("10.0.0.2") ("255.255.255.0") ("g") ("o") ("n")
    utf8W gbkW cmdW outErrW
  refine ⟨h.1.trans (by decide), ?_⟩
  exact h.2.2.2.2.2.2.1 rfl (by decide)

end TunRs
